import Mathlib

/-!
Shallow embedding of `src/demo/index.js` (spatial-navigation-cursor):
a `CursorManager` that tracks which DOM element carries a focus-marker
CSS class and repositions a synthetic cursor overlay over it.

Modelling conventions:
* DOM elements are identified by `Nat`.
* The static part of the document/window (document order, offsetParent
  chain, layout rectangles, viewport height, the overlay's computed
  border widths) is an `Env`.  The mutable world (class markers, scroll
  position, the manager's private fields, the overlay's inline style) is
  a `State`.
* Geometry is exact rational arithmetic (`Rat`); the source's
  `* 0.5` becomes `* (1/2 : Rat)`.
* `window.scroll({behavior: 'smooth'})` is modelled as immediately
  setting the requested scroll offsets (the requested target is what the
  claims are about; the animation has no callback the code consumes).
* `parseInt(style.borderTopWidth, 10)` / `borderLeftWidth` are the
  integer fields `borderTopWidth`/`borderLeftWidth` of `Env`.
* `MutationObserver` delivery: a callback invocation receives a batch of
  records and runs only while the observer is connected (`observing`).
* `Node.removeChild` throws `NotFoundError` when the argument is not a
  child, so `removeFromRoot_`/`stop` return `Option State` (`none` =
  the DOM exception propagates).
* `trigger_` is the event emission: it appends `(type, payload target)`
  to the `emitted` log (the source synchronously invokes each listener
  registered for the type; listener side effects are outside the model).
-/

/-- `cursorManager$Rect`: `{top, left, width, height}`. -/
structure Rect where
  top : Rat
  left : Rat
  width : Rat
  height : Rat
deriving DecidableEq, Repr

/-- A `MutationRecord` as consumed by the observer callback: only its
`target` element is inspected (the observer filters to `class`
attribute changes already). -/
structure MutationRecord where
  target : Nat
deriving DecidableEq, Repr

/-- The static document/window environment. -/
structure Env where
  /-- `document.body`. -/
  body : Nat
  /-- All elements currently in the document, in document order;
  `document.querySelector` scans this list. -/
  order : List Nat
  /-- The `offsetParent` chain (`none` = null: detached or not rendered). -/
  offsetParent : Nat → Option Nat
  /-- Whether an element lies inside the observed root subtree (used only
  to state the spec's subtree-restricted query for comparison). -/
  inRoot : Nat → Bool
  /-- The absolute (document-coordinate) layout rectangle of an element;
  `getBoundingClientRect` subtracts the current scroll offsets from it. -/
  rect : Nat → Rect
  /-- `window.innerHeight`. -/
  innerHeight : Rat
  /-- `parseInt(getComputedStyle(cursor).borderTopWidth, 10)`. -/
  borderTopWidth : Int
  /-- `parseInt(getComputedStyle(cursor).borderLeftWidth, 10)`. -/
  borderLeftWidth : Int
  /-- Bound on the length of any `offsetParent` chain (chains in a real
  document are finite and acyclic; the recursion in
  `isInDocumentBody` consumes one unit per step). -/
  parentFuel : Nat

/-- The mutable world: document class state, window scroll, and the
`CursorManager`'s own fields (including the overlay's inline style). -/
structure State where
  /-- Per element, whether `classList.contains(focusClassName)`. -/
  marked : Nat → Bool
  /-- `window.pageXOffset`. -/
  scrollX : Rat
  /-- `window.pageYOffset`. -/
  scrollY : Rat
  /-- `this.focused_` (null = `none`). -/
  focused_ : Option Nat
  /-- `this.freezed_`. -/
  freezed_ : Bool
  /-- `this.cursor_.style.display` (`"none"` = hidden). -/
  display : String
  /-- `this.cursor_.style.transitionDuration`. -/
  transitionDuration : String
  /-- `this.cursor_.style.transform`, as the translate3d x/y pair. -/
  transform : Option (Rat × Rat)
  /-- `this.cursor_.style.width` in px (`none` = never set). -/
  cursorWidth : Option Rat
  /-- `this.cursor_.style.height` in px (`none` = never set). -/
  cursorHeight : Option Rat
  /-- `this.cursor_.style.position`. -/
  positionStyle : String
  /-- `this.cursor_.style.top`. -/
  topStyle : String
  /-- `this.cursor_.style.left`. -/
  leftStyle : String
  /-- Whether the overlay carries the base identifying class. -/
  baseClass : Bool
  /-- Whether the overlay is currently a child of the root. -/
  cursorAttached : Bool
  /-- Whether `this.observer_` has been assigned (it is never nulled). -/
  observerSet : Bool
  /-- Whether the `MutationObserver` is currently connected. -/
  observing : Bool
  /-- `this.eventListeners_`: ordered `(type, listener)` pairs; listeners
  are identified opaquely by `Nat`. -/
  eventListeners_ : List (String × Nat)
  /-- Log of `trigger_` invocations: `(event type, payload target)`. -/
  emitted : List (String × Nat)

/-- `CursorManager.Events.FOCUS_UPDATED`. -/
def focusUpdatedEvent : String := "focusUpdated"

/-- The constructor's field initialisation, given the ambient document
class state and scroll position (the cursor `div` starts with empty
inline style and is not yet attached). -/
def init (marked : Nat → Bool) (scrollX scrollY : Rat) : State where
  marked := marked
  scrollX := scrollX
  scrollY := scrollY
  focused_ := none
  freezed_ := false
  display := ""
  transitionDuration := ""
  transform := none
  cursorWidth := none
  cursorHeight := none
  positionStyle := ""
  topStyle := ""
  leftStyle := ""
  baseClass := false
  cursorAttached := false
  observerSet := false
  observing := false
  eventListeners_ := []
  emitted := []

/-- Fuel-indexed body of `isInDocumentBody`:
`if (!element) return false; if (element === document.body) return true;
if (!element.offsetParent) return false;
return isInDocumentBody(element.offsetParent);` -/
def inDocumentBodyFuel (env : Env) : Nat → Option Nat → Bool
  | _, none => false
  | fuel, some e =>
    if e = env.body then true
    else
      match env.offsetParent e with
      | none => false
      | some p =>
        match fuel with
        | 0 => false
        | Nat.succ f => inDocumentBodyFuel env f (some p)

/-- `isInDocumentBody(element)`: the recursive `offsetParent` walk,
run with the environment's chain-length bound as fuel. -/
def isInDocumentBody (env : Env) (e : Option Nat) : Bool :=
  inDocumentBodyFuel env env.parentFuel e

/-- `document.querySelector('.' + focusClassName)`: the first element in
document order that currently carries the marker class. -/
def querySelector (env : Env) (marked : Nat → Bool) : Option Nat :=
  env.order.find? marked

/-- `elem.getBoundingClientRect()`: viewport-relative rectangle. -/
def getBoundingClientRect (env : Env) (s : State) (e : Nat) : Rect where
  top := (env.rect e).top - s.scrollY
  left := (env.rect e).left - s.scrollX
  width := (env.rect e).width
  height := (env.rect e).height

/-- `getAbsoluteElementRect(elem)`: bounding client rect plus
`pageXOffset`/`pageYOffset`. -/
def getAbsoluteElementRect (env : Env) (s : State) (e : Nat) : Rect :=
  let r := getBoundingClientRect env s e
  { left := r.left + s.scrollX, top := r.top + s.scrollY,
    width := r.width, height := r.height }

/-- `hideCursor_()`: `this.cursor_.style.display = 'none'`. -/
def hideCursor_ (s : State) : State := { s with display := "none" }

/-- `showCursor_()`: `this.cursor_.style.display = ''`. -/
def showCursor_ (s : State) : State := { s with display := "" }

/-- `scrollIntoView_(rect)`: `window.scroll` keeping `pageXOffset` and
requesting `top = rect.top - innerHeight*0.5 + rect.height*0.5`. -/
def scrollIntoView_ (env : Env) (r : Rect) (s : State) : State :=
  { s with scrollX := s.scrollX
           scrollY := r.top - env.innerHeight * (1/2 : Rat) + r.height * (1/2 : Rat) }

/-- `moveCursorTo_(rect)`: sets the overlay transform to
`translate3d(rect.left - borderLeft, rect.top - borderTop, 0)`. -/
def moveCursorTo_ (env : Env) (r : Rect) (s : State) : State :=
  { s with transform := some (r.left - (env.borderLeftWidth : Rat),
                              r.top - (env.borderTopWidth : Rat)) }

/-- `resizeCursorTo_(rect)`: sets the overlay width/height to the rect's. -/
def resizeCursorTo_ (r : Rect) (s : State) : State :=
  { s with cursorWidth := some r.width, cursorHeight := some r.height }

/-- Helper for the save/restore of `style.transitionDuration`. -/
def setTransitionDuration (d : String) (s : State) : State :=
  { s with transitionDuration := d }

/-- The shared first line of `place`/`move`:
`isInDocumentBody(this.focused_) ? this.focused_ :
 document.querySelector('.' + focusClassName)`. -/
def effectiveFocused (env : Env) (s : State) : Option Nat :=
  if isInDocumentBody env s.focused_ then s.focused_
  else querySelector env s.marked

/-- `place()`. -/
def place (env : Env) (s : State) : State :=
  match effectiveFocused env s with
  | none => hideCursor_ s
  | some focused =>
    let origTransitionDuration := s.transitionDuration
    let s1 := setTransitionDuration "0" s
    let r := getAbsoluteElementRect env s1 focused
    let s2 := moveCursorTo_ env r (resizeCursorTo_ r (scrollIntoView_ env r s1))
    let s3 := if !(s2.marked focused) then hideCursor_ s2 else showCursor_ s2
    setTransitionDuration origTransitionDuration s3

/-- `move()`. -/
def move (env : Env) (s : State) : State :=
  match effectiveFocused env s with
  | none => hideCursor_ s
  | some focused =>
    if !(s.marked focused) then hideCursor_ s
    else
      let s1 := showCursor_ s
      let r := getAbsoluteElementRect env s1 focused
      moveCursorTo_ env r (resizeCursorTo_ r (scrollIntoView_ env r s1))

/-- `focus()`: `if (!this.focused_ || this.cursor_.style.display === 'none')
this.place(); else this.move();` -/
def focus (env : Env) (s : State) : State :=
  if s.focused_.isNone || s.display == "none" then place env s else move env s

/-- `freeze()`. -/
def freeze (s : State) : State := { s with freezed_ := true }

/-- `resume()`: `this.freezed_ = false; this.focus();` -/
def resume (env : Env) (s : State) : State :=
  focus env { s with freezed_ := false }

/-- `getFocusedElement()`. -/
def getFocusedElement (s : State) : Option Nat := s.focused_

/-- `addEventListener(type, listener)`. -/
def addEventListener (type : String) (listener : Nat) (s : State) : State :=
  { s with eventListeners_ := s.eventListeners_ ++ [(type, listener)] }

/-- `removeEventListener(type, listener)`: `findIndex` then `splice` of
the first exact `(type, listener)` match; no match is a no-op. -/
def removeEventListener (type : String) (listener : Nat) (s : State) : State :=
  match s.eventListeners_.findIdx? (fun l => l.1 == type && l.2 == listener) with
  | some i => { s with eventListeners_ := s.eventListeners_.eraseIdx i }
  | none => s

/-- `trigger_(type, event)`: records the emission (the source then
synchronously invokes every listener whose registered type matches). -/
def trigger_ (type : String) (payloadTarget : Nat) (s : State) : State :=
  { s with emitted := s.emitted ++ [(type, payloadTarget)] }

/-- `styleCursor_()`: base class, `position:absolute`, `top:0`, `left:0`,
then `hideCursor_()`. -/
def styleCursor_ (s : State) : State :=
  hideCursor_ { s with baseClass := true, positionStyle := "absolute",
                       topStyle := "0", leftStyle := "0" }

/-- `appendToRoot_()`: `this.root_.appendChild(this.cursor_)`. -/
def appendToRoot_ (s : State) : State := { s with cursorAttached := true }

/-- `removeFromRoot_()`: `this.root_.removeChild(this.cursor_)` —
throws `NotFoundError` (modelled as `none`) when the overlay is not
currently a child of the root. -/
def removeFromRoot_ (s : State) : Option State :=
  if s.cursorAttached then some { s with cursorAttached := false } else none

/-- `disconnectFocus_()`: `if (!this.observer_) return;
this.observer_.disconnect();` -/
def disconnectFocus_ (s : State) : State :=
  if s.observerSet then { s with observing := false } else s

/-- The registration half of `observeFocus_()`: assigns `this.observer_`
and connects it to the root subtree. -/
def observeFocusReg (s : State) : State :=
  { s with observerSet := true, observing := true }

/-- `start()`: `styleCursor_(); appendToRoot_(); observeFocus_(); focus();` -/
def start (env : Env) (s : State) : State :=
  focus env (observeFocusReg (appendToRoot_ (styleCursor_ s)))

/-- `stop()`: `removeFromRoot_(); disconnectFocus_();` — the DOM
exception from `removeChild` aborts the call before the disconnect. -/
def stop (s : State) : Option State :=
  (removeFromRoot_ s).map disconnectFocus_

/-- The `for (let mutation of mutationRecords) { if (...contains) {
target = mutation.target; break; } }` loop: first record whose target
currently carries the marker class. -/
def pickTarget (marked : Nat → Bool) : List MutationRecord → Option Nat
  | [] => none
  | m :: rest => if marked m.target then some m.target else pickTarget marked rest

/-- The `MutationObserver` callback body installed by `observeFocus_()`. -/
def observerCallback (env : Env) (records : List MutationRecord) (s : State) : State :=
  match pickTarget s.marked records with
  | some target =>
    let s1 := { s with focused_ := some target }
    let s2 := if s1.freezed_ then s1 else focus env s1
    trigger_ focusUpdatedEvent target s2
  | none => hideCursor_ s

/-- Host delivery of one record batch: the callback runs only while the
observer is connected. -/
def deliverBatch (env : Env) (records : List MutationRecord) (s : State) : State :=
  if s.observing then observerCallback env records s else s

/-- One class-attribute mutation: set or clear the marker on an element. -/
def setMarked (e : Nat) (b : Bool) (s : State) : State :=
  { s with marked := fun n => if n = e then b else s.marked n }

/-- Apply a batch of marker mutations to the document. -/
def applyChanges (chs : List (Nat × Bool)) (s : State) : State :=
  chs.foldl (fun s c => setMarked c.1 c.2 s) s

/-- One settled observer turn: the batch of marker mutations happens,
then the host delivers one record per mutation, in mutation order. -/
def batchStep (env : Env) (chs : List (Nat × Bool)) (s : State) : State :=
  deliverBatch env (chs.map (fun c => { target := c.1 })) (applyChanges chs s)

/-- A whole settled run: a sequence of observer turns. -/
def runBatches (env : Env) (bs : List (List (Nat × Bool))) (s : State) : State :=
  bs.foldl (fun s b => batchStep env b s) s

/-! ## Helper lemmas -/

/-- `getAbsoluteElementRect` recovers the absolute layout rectangle,
whatever the current scroll position is. -/
theorem getAbsoluteElementRect_eq (env : Env) (s : State) (e : Nat) :
    getAbsoluteElementRect env s e = env.rect e := by
  unfold getAbsoluteElementRect getBoundingClientRect
  cases h : env.rect e
  simp [h]

/-- `place` leaves the document state and the manager's non-style fields
untouched. -/
theorem place_core (env : Env) (s : State) :
    (place env s).marked = s.marked ∧ (place env s).focused_ = s.focused_ ∧
    (place env s).freezed_ = s.freezed_ ∧ (place env s).emitted = s.emitted ∧
    (place env s).observing = s.observing := by
  rcases h : effectiveFocused env s with _ | f
  · simp [place, h, hideCursor_]
  · simp only [place, h]
    split <;>
      simp [hideCursor_, showCursor_, setTransitionDuration, moveCursorTo_,
            resizeCursorTo_, scrollIntoView_]

/-- `move` leaves the document state and the manager's non-style fields
untouched. -/
theorem move_core (env : Env) (s : State) :
    (move env s).marked = s.marked ∧ (move env s).focused_ = s.focused_ ∧
    (move env s).freezed_ = s.freezed_ ∧ (move env s).emitted = s.emitted ∧
    (move env s).observing = s.observing := by
  rcases h : effectiveFocused env s with _ | f
  · simp [move, h, hideCursor_]
  · simp only [move, h]
    split <;>
      simp [hideCursor_, showCursor_, setTransitionDuration, moveCursorTo_,
            resizeCursorTo_, scrollIntoView_]

/-- `focus` leaves the document state and the manager's non-style fields
untouched. -/
theorem focus_core (env : Env) (s : State) :
    (focus env s).marked = s.marked ∧ (focus env s).focused_ = s.focused_ ∧
    (focus env s).freezed_ = s.freezed_ ∧ (focus env s).emitted = s.emitted ∧
    (focus env s).observing = s.observing := by
  unfold focus
  split
  · exact place_core env s
  · exact move_core env s

/-- The record-scan loop is `List.find?` on the batch, projected to the
record's target. -/
theorem pickTarget_eq_find? (marked : Nat → Bool) (records : List MutationRecord) :
    pickTarget marked records =
      (records.find? (fun m => marked m.target)).map MutationRecord.target := by
  induction records with
  | nil => rfl
  | cons m rest ih =>
    by_cases h : marked m.target
    · simp [pickTarget, List.find?, h]
    · simp [pickTarget, List.find?, h, ih]

/-- A picked target carries the marker at pick time. -/
theorem pickTarget_marked (marked : Nat → Bool) (records : List MutationRecord)
    (t : Nat) (h : pickTarget marked records = some t) : marked t = true := by
  rw [pickTarget_eq_find?] at h
  rcases Option.map_eq_some'.mp h with ⟨m, hm, ht⟩
  have := List.find?_some hm
  simpa [ht] using this

/-- A picked target is the target of one of the batch's records. -/
theorem pickTarget_mem (marked : Nat → Bool) (records : List MutationRecord)
    (t : Nat) (h : pickTarget marked records = some t) :
    t ∈ records.map MutationRecord.target := by
  rw [pickTarget_eq_find?] at h
  rcases Option.map_eq_some'.mp h with ⟨m, hm, ht⟩
  exact ht ▸ List.mem_map_of_mem _ (List.mem_of_find?_eq_some hm)

/-- Applying a batch of marker mutations changes only the `marked` field. -/
theorem applyChanges_eq : ∀ (chs : List (Nat × Bool)) (s : State),
    applyChanges chs s = { s with marked := (applyChanges chs s).marked }
  | [], _ => rfl
  | c :: rest, s => by
    show applyChanges rest (setMarked c.1 c.2 s) = _
    rw [applyChanges_eq rest (setMarked c.1 c.2 s)]
    rfl

/-! ## Concrete instances used by witnesses and counterexamples -/

/-- A small concrete document: `body` is element 0; elements 1 and 2 are
attached under the body and inside the observed subtree. -/
def envD : Env where
  body := 0
  order := [1, 2]
  offsetParent := fun n => if n = 1 ∨ n = 2 then some 0 else none
  inRoot := fun _ => true
  rect := fun n => { top := 100 * (n : Rat), left := 10, width := 80, height := 40 }
  innerHeight := 500
  borderTopWidth := 2
  borderLeftWidth := 3
  parentFuel := 4

/-- A running manager tracking element 1 (element 1 carries the marker). -/
def sD1 : State :=
  { init (fun n => n == 1) 0 0 with
    focused_ := some 1, observing := true, observerSet := true, cursorAttached := true }

/-- A running manager over a document with no marker holder at all. -/
def sNone : State :=
  { init (fun _ => false) 0 0 with
    observing := true, observerSet := true, cursorAttached := true }

/-! ## Claims -/

/-- C3: `focus()` dispatches to `place()` exactly when there is no
tracked element or the overlay is currently hidden, and to `move()`
in every other case. -/
theorem c3_focus_dispatch (env : Env) (s : State) :
    focus env s =
      if s.focused_ = none ∨ s.display = "none" then place env s else move env s := by
  unfold focus
  by_cases hc : s.focused_ = none ∨ s.display = "none"
  · rw [if_pos hc]
    have hb : (s.focused_.isNone || s.display == "none") = true := by
      rcases hc with h | h <;> simp [h]
    rw [if_pos hb]
  · rw [if_neg hc]
    push_neg at hc
    rcases hf : s.focused_ with _ | f
    · exact absurd hf hc.1
    · have hd : (s.display == "none") = false := beq_eq_false_iff_ne.mpr hc.2
      have hnb : ¬ (((some f : Option Nat).isNone || s.display == "none") = true) := by
        simp [hd]
      rw [if_neg hnb]

/-- C7: `place()` restores the overlay's transition-duration style to its
pre-call value on every path (missing target, hidden, or placed). -/
theorem c7_transition_roundtrip (env : Env) (s : State) :
    (place env s).transitionDuration = s.transitionDuration := by
  rcases h : effectiveFocused env s with _ | f
  · simp [place, h, hideCursor_]
  · simp only [place, h]
    split <;> rfl

/-- C10: a batch in which no record's target currently carries the
marker hides the overlay, leaves the tracked reference (and thus
`getFocusedElement()`) unchanged, and emits no notification. -/
theorem c10_no_target_batch (env : Env) (records : List MutationRecord) (s : State)
    (h : pickTarget s.marked records = none) :
    observerCallback env records s = hideCursor_ s ∧
    (observerCallback env records s).display = "none" ∧
    getFocusedElement (observerCallback env records s) = getFocusedElement s ∧
    (observerCallback env records s).emitted = s.emitted := by
  have e : observerCallback env records s = hideCursor_ s := by
    unfold observerCallback
    rw [h]
  exact ⟨e, by rw [e]; rfl, by rw [e]; rfl, by rw [e]; rfl⟩

theorem c10_witness :
    observerCallback envD [{ target := 2 }] sD1 = hideCursor_ sD1 ∧
    (observerCallback envD [{ target := 2 }] sD1).display = "none" ∧
    getFocusedElement (observerCallback envD [{ target := 2 }] sD1) = getFocusedElement sD1 ∧
    (observerCallback envD [{ target := 2 }] sD1).emitted = sD1.emitted :=
  c10_no_target_batch envD [{ target := 2 }] sD1 (by decide)

/-- C6: the observer callback selects the FIRST record in batch
(observation) order whose target currently carries the marker — it is
`List.find?` over the records — and when no record qualifies the
overlay is hidden. -/
theorem c6_first_record_order (env : Env) (records : List MutationRecord) (s : State) :
    pickTarget s.marked records =
      (records.find? (fun m => s.marked m.target)).map MutationRecord.target ∧
    (pickTarget s.marked records = none →
      observerCallback env records s = hideCursor_ s ∧
      (observerCallback env records s).display = "none") := by
  refine ⟨pickTarget_eq_find? _ _, fun h => ?_⟩
  have e : observerCallback env records s = hideCursor_ s := by
    unfold observerCallback
    rw [h]
  exact ⟨e, by rw [e]; rfl⟩

/-- Both elements 1 and 2 carry the marker; the records list them in the
order 2 then 1 while document order is 1 then 2: observation order wins. -/
theorem c6_witness :
    pickTarget (fun n => n == 1 || n == 2) [{ target := 2 }, { target := 1 }] = some 2 := by
  have h := (c6_first_record_order envD [{ target := 2 }, { target := 1 }]
      { sD1 with marked := fun n => n == 1 || n == 2 }).1
  rw [h]
  rfl

/-- C2: on a batch with a record whose target currently carries the
marker, the callback records the target as tracked and emits the
focus-updated notification whether frozen or not, but performs the
visual `focus()` repositioning only when not frozen; while frozen the
overlay style and the scroll position are untouched, and `resume()` is
exactly one unfreeze followed by one `focus()`. -/
theorem c2_freeze_suppresses_repositioning (env : Env) (records : List MutationRecord)
    (s : State) (t : Nat) (h : pickTarget s.marked records = some t) :
    (observerCallback env records s).focused_ = some t ∧
    (observerCallback env records s).emitted = s.emitted ++ [(focusUpdatedEvent, t)] ∧
    (s.freezed_ = true →
      (observerCallback env records s).transform = s.transform ∧
      (observerCallback env records s).cursorWidth = s.cursorWidth ∧
      (observerCallback env records s).cursorHeight = s.cursorHeight ∧
      (observerCallback env records s).scrollX = s.scrollX ∧
      (observerCallback env records s).scrollY = s.scrollY ∧
      (observerCallback env records s).display = s.display ∧
      (observerCallback env records s).transitionDuration = s.transitionDuration) ∧
    (s.freezed_ = false →
      observerCallback env records s =
        trigger_ focusUpdatedEvent t (focus env { s with focused_ := some t })) ∧
    (∀ u : State, resume env u = focus env { u with freezed_ := false }) := by
  cases hf : s.freezed_ with
  | true =>
    have e : observerCallback env records s =
        trigger_ focusUpdatedEvent t { s with focused_ := some t, freezed_ := true } := by
      unfold observerCallback
      rw [h]
      simp [hf]
    refine ⟨by rw [e]; rfl, by rw [e]; rfl, fun _ => ?_, fun h0 => absurd h0 (by decide),
      fun _ => rfl⟩
    rw [e]
    exact ⟨rfl, rfl, rfl, rfl, rfl, rfl, rfl⟩
  | false =>
    have e : observerCallback env records s =
        trigger_ focusUpdatedEvent t
          (focus env { s with focused_ := some t, freezed_ := false }) := by
      unfold observerCallback
      rw [h]
      simp [hf]
    refine ⟨?_, ?_, fun h0 => absurd h0 (by decide), fun _ => e, fun _ => rfl⟩
    · rw [e]
      exact (focus_core env { s with focused_ := some t, freezed_ := false }).2.1
    · rw [e]
      show (focus env { s with focused_ := some t, freezed_ := false }).emitted ++ _ = _
      rw [(focus_core env { s with focused_ := some t, freezed_ := false }).2.2.2.1]

/-- A frozen manager over `envD` where element 2 carries the marker. -/
def sC2 : State := { sD1 with freezed_ := true, marked := fun n => n == 2 }

/-- A frozen manager: the batch updates the tracked element and emits the
notification, but the overlay transform is untouched. -/
theorem c2_witness :
    (observerCallback envD [{ target := 2 }] sC2).focused_ = some 2 ∧
    (observerCallback envD [{ target := 2 }] sC2).transform = sC2.transform ∧
    (observerCallback envD [{ target := 2 }] sC2).emitted =
      sC2.emitted ++ [(focusUpdatedEvent, 2)] := by
  have h := c2_freeze_suppresses_repositioning envD [{ target := 2 }] sC2 2 rfl
  exact ⟨h.1, (h.2.2.1 rfl).1, h.2.1⟩

/-- The effective-target rule as claim C4 words it: fall back to
querying the OBSERVED SUBTREE (rather than the whole document, which is
what `document.querySelector` scans) for a marker holder. -/
def effectiveFocusedSubtree (env : Env) (s : State) : Option Nat :=
  if isInDocumentBody env s.focused_ then s.focused_
  else (env.order.filter env.inRoot).find? s.marked

/-- A document where the only marker holder, element 7, is OUTSIDE the
observed subtree; the tracked element 5 is detached. -/
def envC4 : Env where
  body := 0
  order := [7]
  offsetParent := fun n => if n = 7 then some 0 else none
  inRoot := fun n => n == 1
  rect := fun _ => { top := 100, left := 50, width := 80, height := 40 }
  innerHeight := 500
  borderTopWidth := 0
  borderLeftWidth := 0
  parentFuel := 3

/-- Manager tracking the detached element 5 over `envC4`. -/
def sC4 : State :=
  { init (fun n => n == 7) 0 0 with
    focused_ := some 5, observing := true, observerSet := true, cursorAttached := true }

/-- C4 counterexample: with the tracked element detached, the code falls
back to the DOCUMENT-wide query and shows the overlay over element 7,
while the claim's subtree-restricted query finds nothing (it would
predict a hidden overlay). -/
theorem c4_counterexample :
    effectiveFocused envC4 sC4 = some 7 ∧
    effectiveFocusedSubtree envC4 sC4 = none ∧
    (place envC4 sC4).display = "" := by
  refine ⟨by decide, by decide, by decide⟩

/-- C4 (amended: the fallback queries the whole document, not just the
observed subtree): the effective target is the tracked element when
attached, otherwise the first marker holder of the DOCUMENT; when
neither exists, both `place()` and `move()` just hide the overlay, and
hiding mutates no geometry. -/
theorem c4_effective_target_resolution (env : Env) (s : State) :
    (isInDocumentBody env s.focused_ = true → effectiveFocused env s = s.focused_) ∧
    (isInDocumentBody env s.focused_ = false →
      effectiveFocused env s = querySelector env s.marked) ∧
    (effectiveFocused env s = none →
      place env s = hideCursor_ s ∧ move env s = hideCursor_ s) ∧
    ((hideCursor_ s).transform = s.transform ∧
     (hideCursor_ s).cursorWidth = s.cursorWidth ∧
     (hideCursor_ s).cursorHeight = s.cursorHeight ∧
     (hideCursor_ s).scrollX = s.scrollX ∧
     (hideCursor_ s).scrollY = s.scrollY ∧
     (hideCursor_ s).transitionDuration = s.transitionDuration) := by
  refine ⟨fun h => ?_, fun h => ?_, fun h => ⟨?_, ?_⟩, rfl, rfl, rfl, rfl, rfl, rfl⟩
  · simp [effectiveFocused, h]
  · simp [effectiveFocused, h]
  · unfold place
    rw [h]
  · unfold move
    rw [h]

theorem c4_witness :
    effectiveFocused envD sD1 = sD1.focused_ ∧
    place envD sNone = hideCursor_ sNone := by
  have h1 := (c4_effective_target_resolution envD sD1).1 (by decide)
  have h2 := ((c4_effective_target_resolution envD sNone).2.2.1 (by decide)).1
  exact ⟨h1, h2⟩

/-- C5: placing an effective target whose absolute rect is
`{top, left, width, height}` scrolls the viewport to vertically center
it (`top - innerHeight/2 + height/2`) with the horizontal offset
preserved, resizes the overlay to `width`/`height`, and translates the
overlay to `(left - borderLeftWidth, top - borderTopWidth)`; `move()`
applies the same geometry when the target still carries the marker. -/
theorem c5_placement_geometry (env : Env) (s : State) (f : Nat)
    (h : effectiveFocused env s = some f) :
    getAbsoluteElementRect env s f = env.rect f ∧
    (place env s).scrollX = s.scrollX ∧
    (place env s).scrollY = (env.rect f).top - env.innerHeight * (1/2 : Rat)
                            + (env.rect f).height * (1/2 : Rat) ∧
    (place env s).cursorWidth = some (env.rect f).width ∧
    (place env s).cursorHeight = some (env.rect f).height ∧
    (place env s).transform = some ((env.rect f).left - (env.borderLeftWidth : Rat),
                                    (env.rect f).top - (env.borderTopWidth : Rat)) ∧
    (s.marked f = true →
      (move env s).scrollX = s.scrollX ∧
      (move env s).scrollY = (env.rect f).top - env.innerHeight * (1/2 : Rat)
                             + (env.rect f).height * (1/2 : Rat) ∧
      (move env s).cursorWidth = some (env.rect f).width ∧
      (move env s).cursorHeight = some (env.rect f).height ∧
      (move env s).transform = some ((env.rect f).left - (env.borderLeftWidth : Rat),
                                     (env.rect f).top - (env.borderTopWidth : Rat))) := by
  refine ⟨getAbsoluteElementRect_eq env s f, ?_⟩
  constructor
  · simp only [place, h]
    split <;>
      simp [hideCursor_, showCursor_, setTransitionDuration, moveCursorTo_,
            resizeCursorTo_, scrollIntoView_, getAbsoluteElementRect_eq]
  refine ⟨?_, ?_, ?_, ?_, fun hm => ?_⟩
  · simp only [place, h]
    split <;>
      simp [hideCursor_, showCursor_, setTransitionDuration, moveCursorTo_,
            resizeCursorTo_, scrollIntoView_, getAbsoluteElementRect_eq]
  · simp only [place, h]
    split <;>
      simp [hideCursor_, showCursor_, setTransitionDuration, moveCursorTo_,
            resizeCursorTo_, scrollIntoView_, getAbsoluteElementRect_eq]
  · simp only [place, h]
    split <;>
      simp [hideCursor_, showCursor_, setTransitionDuration, moveCursorTo_,
            resizeCursorTo_, scrollIntoView_, getAbsoluteElementRect_eq]
  · simp only [place, h]
    split <;>
      simp [hideCursor_, showCursor_, setTransitionDuration, moveCursorTo_,
            resizeCursorTo_, scrollIntoView_, getAbsoluteElementRect_eq]
  · simp only [move, h, hm]
    simp [hideCursor_, showCursor_, setTransitionDuration, moveCursorTo_,
          resizeCursorTo_, scrollIntoView_, getAbsoluteElementRect_eq, hm]

theorem c5_witness :
    (place envD sD1).scrollY = (envD.rect 1).top - envD.innerHeight * (1/2 : Rat)
                               + (envD.rect 1).height * (1/2 : Rat) ∧
    (place envD sD1).cursorWidth = some (envD.rect 1).width ∧
    (place envD sD1).transform = some ((envD.rect 1).left - (envD.borderLeftWidth : Rat),
                                       (envD.rect 1).top - (envD.borderTopWidth : Rat)) := by
  have h := c5_placement_geometry envD sD1 1 (by decide)
  exact ⟨h.2.2.1, h.2.2.2.1, h.2.2.2.2.2.1⟩

/-- Removing the (already false) frozen flag leaves the state unchanged. -/
theorem state_unfreeze_eq (s : State) (h : s.freezed_ = false) :
    ({ s with freezed_ := false } : State) = s := by
  cases s
  simp_all

/-- A running unfrozen manager tracking marked, attached element 1 while
the overlay is hidden. -/
def sC8 : State := { sD1 with display := "none" }

/-- C8 counterexample: `resume()` on a NOT-frozen manager is not a no-op:
it still calls `focus()`, which here reveals the hidden overlay. -/
theorem c8_counterexample :
    sC8.freezed_ = false ∧ sC8.display = "none" ∧ (resume envD sC8).display = "" := by
  refine ⟨by decide, by decide, by decide⟩

/-- C8 (amended): `resume()` always clears the frozen flag and performs
one `focus()`; when the engine is not frozen it behaves exactly like a
plain `focus()` call (which may reposition or reveal the overlay), not
like a no-op. -/
theorem c8_resume_unfrozen (env : Env) (s : State) (h : s.freezed_ = false) :
    resume env s = focus env s ∧ (resume env s).freezed_ = false := by
  have e : ({ s with freezed_ := false } : State) = s := state_unfreeze_eq s h
  constructor
  · show focus env { s with freezed_ := false } = focus env s
    rw [e]
  · show (focus env { s with freezed_ := false }).freezed_ = false
    rw [e]
    exact (focus_core env s).2.2.1.trans h

theorem c8_witness :
    resume envD sC8 = focus envD sC8 ∧ (resume envD sC8).freezed_ = false :=
  c8_resume_unfrozen envD sC8 rfl

/-- A started manager (overlay attached, observer connected). -/
def sC9 : State :=
  { init (fun _ => false) 0 0 with
    cursorAttached := true, observerSet := true, observing := true }

/-- The state after the first successful `stop()` on `sC9`. -/
def sC9b : State := { sC9 with cursorAttached := false, observing := false }

/-- C9 counterexample: the first `stop()` succeeds but a second `stop()`
throws (`removeChild` of the already-removed overlay), so `stop()` is
not idempotent. -/
theorem c9_counterexample :
    (stop sC9).isSome = true ∧ ((stop sC9).bind stop).isSome = false := by
  refine ⟨by decide, by decide⟩

/-- C9 (amended): `stop()` on a started engine is terminal — it
disconnects observation and detaches the overlay, and afterwards no
marker-change batch moves, shows, or otherwise updates the overlay or
emits a notification — but it is NOT idempotent: a second `stop()`
fails on `removeChild` (modelled as `none`). -/
theorem c9_stop_terminal (env : Env) (s s1 : State)
    (hAtt : s.cursorAttached = true) (hSet : s.observerSet = true)
    (hstop : stop s = some s1) :
    s1.observing = false ∧ s1.cursorAttached = false ∧ stop s1 = none ∧
    ∀ chs : List (Nat × Bool),
      (batchStep env chs s1).display = s1.display ∧
      (batchStep env chs s1).transform = s1.transform ∧
      (batchStep env chs s1).cursorWidth = s1.cursorWidth ∧
      (batchStep env chs s1).cursorHeight = s1.cursorHeight ∧
      (batchStep env chs s1).scrollX = s1.scrollX ∧
      (batchStep env chs s1).scrollY = s1.scrollY ∧
      (batchStep env chs s1).emitted = s1.emitted ∧
      (batchStep env chs s1).focused_ = s1.focused_ := by
  have e0 : stop s = some (disconnectFocus_ { s with cursorAttached := false }) := by
    simp [stop, removeFromRoot_, hAtt]
  have e1 : disconnectFocus_ { s with cursorAttached := false } =
      { s with cursorAttached := false, observing := false } := by
    simp [disconnectFocus_, hSet]
  have es1 : s1 = { s with cursorAttached := false, observing := false } := by
    rw [e0, e1] at hstop
    exact (Option.some.inj hstop).symm
  have hObs : s1.observing = false := by rw [es1]
  have hCur : s1.cursorAttached = false := by rw [es1]
  refine ⟨hObs, hCur, ?_, ?_⟩
  · simp [stop, removeFromRoot_, hCur]
  · intro chs
    have hObs2 : (applyChanges chs s1).observing = false := by
      rw [applyChanges_eq chs s1]
      exact hObs
    have e2 : batchStep env chs s1 = applyChanges chs s1 := by
      unfold batchStep deliverBatch
      simp [hObs2]
    rw [e2, applyChanges_eq chs s1]
    exact ⟨rfl, rfl, rfl, rfl, rfl, rfl, rfl, rfl⟩

theorem c9_witness :
    sC9b.observing = false ∧ stop sC9b = none ∧
    (batchStep envD [(1, true)] sC9b).display = sC9b.display ∧
    (batchStep envD [(1, true)] sC9b).emitted = sC9b.emitted := by
  have h := c9_stop_terminal envD sC9 sC9b rfl rfl rfl
  exact ⟨h.1, h.2.2.1, (h.2.2.2 [(1, true)]).1, (h.2.2.2 [(1, true)]).2.2.2.2.2.2.1⟩

/-- One observer callback keeps the observer connected and keeps the
overlay sound: it can be visible only when some in-document element
carries the marker. -/
theorem observerCallback_visibility (env : Env) (records : List MutationRecord) (s : State)
    (ht : ∀ t ∈ records.map MutationRecord.target, t ∈ env.order)
    (hobs : s.observing = true) :
    (observerCallback env records s).observing = true ∧
    ((observerCallback env records s).display ≠ "none" →
      ∃ e ∈ env.order, (observerCallback env records s).marked e = true) := by
  cases h : pickTarget s.marked records with
  | none =>
    have e : observerCallback env records s = hideCursor_ s := by
      unfold observerCallback
      rw [h]
    rw [e]
    exact ⟨hobs, fun hd => absurd rfl hd⟩
  | some t =>
    have hmem : t ∈ env.order := ht t (pickTarget_mem _ _ _ h)
    have hmk : s.marked t = true := pickTarget_marked _ _ _ h
    cases hf : s.freezed_ with
    | true =>
      have e : observerCallback env records s =
          trigger_ focusUpdatedEvent t { s with focused_ := some t, freezed_ := true } := by
        unfold observerCallback
        rw [h]
        simp [hf]
      rw [e]
      exact ⟨hobs, fun _ => ⟨t, hmem, hmk⟩⟩
    | false =>
      have e : observerCallback env records s =
          trigger_ focusUpdatedEvent t
            (focus env { s with focused_ := some t, freezed_ := false }) := by
        unfold observerCallback
        rw [h]
        simp [hf]
      rw [e]
      constructor
      · exact ((focus_core env { s with focused_ := some t, freezed_ := false }).2.2.2.2).trans
          hobs
      · intro _
        refine ⟨t, hmem, ?_⟩
        show (focus env { s with focused_ := some t, freezed_ := false }).marked t = true
        rw [(focus_core env { s with focused_ := some t, freezed_ := false }).1]
        exact hmk

/-- One settled observer turn preserves connectivity and soundness of
overlay visibility, provided the mutated elements are in the document. -/
theorem batchStep_visibility (env : Env) (chs : List (Nat × Bool)) (s : State)
    (hc : ∀ c ∈ chs, (c : Nat × Bool).1 ∈ env.order)
    (hobs : s.observing = true) :
    (batchStep env chs s).observing = true ∧
    ((batchStep env chs s).display ≠ "none" →
      ∃ e ∈ env.order, (batchStep env chs s).marked e = true) := by
  have hobs2 : (applyChanges chs s).observing = true := by
    rw [applyChanges_eq chs s]
    exact hobs
  have ht : ∀ t ∈ (chs.map (fun c => ({ target := c.1 } : MutationRecord))).map
      MutationRecord.target, t ∈ env.order := by
    intro t htm
    rw [List.map_map] at htm
    obtain ⟨c, hcm, rfl⟩ := List.mem_map.mp htm
    exact hc c hcm
  have e : batchStep env chs s =
      observerCallback env (chs.map (fun c => ({ target := c.1 } : MutationRecord)))
        (applyChanges chs s) := by
    unfold batchStep deliverBatch
    simp [hobs2]
  rw [e]
  exact observerCallback_visibility env _ _ ht hobs2

/-- A whole settled run preserves connectivity and visibility soundness. -/
theorem runBatches_visibility (env : Env) (bs : List (List (Nat × Bool))) (s : State)
    (hb : ∀ b ∈ bs, ∀ c ∈ b, (c : Nat × Bool).1 ∈ env.order)
    (hobs : s.observing = true)
    (hvis : s.display ≠ "none" → ∃ e ∈ env.order, s.marked e = true) :
    (runBatches env bs s).observing = true ∧
    ((runBatches env bs s).display ≠ "none" →
      ∃ e ∈ env.order, (runBatches env bs s).marked e = true) := by
  induction bs generalizing s with
  | nil => exact ⟨hobs, hvis⟩
  | cons b rest ih =>
    have hstep := batchStep_visibility env b s (hb b (by simp)) hobs
    show (runBatches env rest (batchStep env b s)).observing = true ∧ _
    exact ih (batchStep env b s) (fun b2 hb2 => hb b2 (by simp [hb2])) hstep.1 hstep.2

/-- C1 (amended: only the forward direction holds): after any settled
sequence of marker-change batches on in-document elements, processed by
a connected observer, the overlay can be visible only if some element
of the document currently carries the marker.  The converse direction
of the claimed "if and only if" is false — see the counterexample. -/
theorem c1_settled_visibility (env : Env) (bs : List (List (Nat × Bool))) (s : State)
    (hb : ∀ b ∈ bs, ∀ c ∈ b, (c : Nat × Bool).1 ∈ env.order)
    (hobs : s.observing = true)
    (hvis : s.display ≠ "none" → ∃ e ∈ env.order, s.marked e = true)
    (hshown : (runBatches env bs s).display ≠ "none") :
    ∃ e ∈ env.order, (runBatches env bs s).marked e = true :=
  (runBatches_visibility env bs s hb hobs hvis).2 hshown

/-- The state right after `start()` on a document with no marker. -/
def sC1 : State := start envD (init (fun _ => false) 0 0)

/-- C1 counterexample (against the claimed "visible if and only if some
live marker holder exists"): mark element 1 (overlay shows), then a
batch that only toggles the marker on element 2 on and off; the
callback finds no record whose target still carries the marker and
hides the overlay, although the live, attached element 1 still carries
the marker. -/
theorem c1_counterexample :
    (runBatches envD [[(1, true)], [(2, true), (2, false)]] sC1).marked 1 = true ∧
    (1 ∈ envD.order) ∧
    isInDocumentBody envD (some 1) = true ∧
    (runBatches envD [[(1, true)], [(2, true), (2, false)]] sC1).display = "none" := by
  refine ⟨by decide, by decide, by decide, by decide⟩

theorem c1_witness :
    ∃ e ∈ envD.order, (runBatches envD [[(1, true)]] sC1).marked e = true := by
  refine c1_settled_visibility envD [[(1, true)]] sC1 (by decide) (by decide) ?_ (by decide)
  intro h
  exact absurd (by decide : sC1.display = "none") h
